import Mathlib

/-!
Verification of the alert-handler core (handler.go) of consul-alerting.

The Go file defines four alert handlers (Stdout, Email, Pagerduty, Slack),
each implementing `Alert(datacenter string, alert *AlertState)`.  We embed
each handler as a pure Lean function from its configuration, the call
arguments and an oracle describing the environment (DNS results, SMTP send
outcomes, webhook outcomes, clock, PagerDuty response errors) to a trace of
observable events plus an outcome (normal return, Go panic, or process
exit).  External library calls (logrus, gomail, gopherduty, slack) are
modelled by trace events that record exactly the arguments the Go code
passes to them; logrus `Panic` and `Fatal` are modelled as aborting, per
their documented semantics (log the entry, then panic / os.Exit).
-/

namespace ConsulAlerting

/-- The AlertState record, reconstructed from its uses in handler.go and the
spec's data model: `Service`, `Tag`, `Node` identify the monitored entity,
`Status` is the health state string (compared against the consul api
constant `HealthPassing`), `Message` is the summary and `Details` the
multi-line free text. -/
structure AlertState where
  Service : String
  Tag : String
  Node : String
  Status : String
  Message : String
  Details : String
deriving DecidableEq

/-- The consul api constant `api.HealthPassing`. -/
def HealthPassing : String := "passing"

/-- A composed e-mail message, as built by gomail in EmailHandler.Alert:
address headers From (with display name) and To, the Subject header and the
plain-text body. -/
structure EmailMessage where
  From : String
  FromName : String
  To : String
  Subject : String
  Body : String
deriving DecidableEq

/-- A slack attachment, with exactly the fields SlackHandler.Alert sets. -/
structure Attachment where
  Color : String
  Fallback : String
  AuthorName : String
  AuthorSubname : String
  AuthorLink : String
  AuthorIcon : String
  Text : String
  Footer : String
  FooterIcon : String
  Ts : Int
deriving DecidableEq

/-- A slack webhook message: the payload posted by SlackHandler.Alert sets
only the Attachments field. -/
structure WebhookMessage where
  Attachments : List Attachment
deriving DecidableEq

/-- Observable events of a handler run: log emissions at each logrus level,
sleeps, SMTP delivery attempts (with the dialer's host, port and
credentials), PagerDuty trigger/resolve API calls, slack webhook posts and
fmt.Println output. -/
inductive Event where
  | logPanic (line : String)
  | logFatal (line : String)
  | logError (line : String)
  | logWarn (line : String)
  | logInfo (line : String)
  | logDebug (line : String)
  | sleep (seconds : Nat)
  | sendMail (host : String) (port : Nat) (username : String) (password : String)
      (msg : EmailMessage)
  | pdTrigger (incidentKey : String) (description : String) (clientStr : String)
      (clientURL : String) (details : String)
  | pdResolve (incidentKey : String) (description : String) (details : String)
  | slackPost (token : String) (msg : WebhookMessage)
  | printLine (s : String)
deriving DecidableEq

/-- How a handler call ends: a normal return, a Go panic propagating to the
caller (logrus Panic, or an out-of-range index), or process termination
(logrus Fatal calls os.Exit). -/
inductive Outcome where
  | normal
  | panicked
  | exited
deriving DecidableEq

/-! ## Stdout handler -/

/-- StdoutHandler configuration (the logger field is the injected sink,
modelled by the trace itself). -/
structure StdoutHandler where
  LogLevel : String
deriving DecidableEq

/-- Go strings.Split specialised to a one-character separator, on the
character list of the string: splits into all substrings separated by the
separator (Split of the empty string is a singleton empty string, matching
Go). -/
def goSplit (sep : Char) : List Char → List (List Char)
  | [] => [[]]
  | c :: cs =>
    let rest := goSplit sep cs
    if c = sep then [] :: rest
    else
      match rest with
      | [] => [[c]]
      | h :: t => (c :: h) :: t

/-- Go strings.Split on a string, for a one-character separator. -/
def goSplitStr (sep : Char) (s : String) : List String :=
  (goSplit sep s.data).map (fun cs => String.mk cs)

/-- Go strings.ToLower (ASCII case mapping, which covers the level names
the switch compares against). -/
def goToLower (s : String) : String :=
  String.mk (s.data.map Char.toLower)

/-- The `text` slice built at the top of StdoutHandler.Alert: the Message,
followed by the newline-split Details when Details is nonempty. -/
def stdoutLines (alert : AlertState) : List String :=
  [alert.Message] ++ (if alert.Details ≠ "" then goSplitStr (Char.ofNat 10) alert.Details else [])

/-- The emission loop of StdoutHandler.Alert: for each line, switch on the
lowercased configured level (the Go code lowercases inside the loop, which
is equivalent to lowercasing once; `lvl` is already lowercased here).
logrus Panic logs the line and then panics, Fatal logs and exits, so those
two branches abort the loop; an unrecognized level matches no case and
emits nothing. -/
def emitLines (lvl : String) : List String → List Event × Outcome
  | [] => ([], Outcome.normal)
  | line :: rest =>
    if lvl = "panic" then ([Event.logPanic line], Outcome.panicked)
    else if lvl = "fatal" then ([Event.logFatal line], Outcome.exited)
    else if lvl = "error" then
      let p := emitLines lvl rest
      (Event.logError line :: p.1, p.2)
    else if lvl = "warn" then
      let p := emitLines lvl rest
      (Event.logWarn line :: p.1, p.2)
    else if lvl = "warning" then
      let p := emitLines lvl rest
      (Event.logWarn line :: p.1, p.2)
    else if lvl = "info" then
      let p := emitLines lvl rest
      (Event.logInfo line :: p.1, p.2)
    else if lvl = "debug" then
      let p := emitLines lvl rest
      (Event.logDebug line :: p.1, p.2)
    else emitLines lvl rest

/-- StdoutHandler.Alert: build the line list and emit each line at the
configured level. -/
def StdoutHandler.Alert (handler : StdoutHandler) (datacenter : String)
    (alert : AlertState) : List Event × Outcome :=
  emitLines (goToLower handler.LogLevel) (stdoutLines alert)

/-! ## Email handler -/

/-- EmailHandler configuration: recipient addresses and the retry bound.
MaxRetries is a Go int; the spec constrains it to be non-negative, so it is
a Nat here. -/
structure EmailHandler where
  Recipients : List String
  MaxRetries : Nat
deriving DecidableEq

/-- The domain extraction `strings.Split(recipient, "@")[1]` of
EmailHandler.Alert: the unchecked index 1 is modelled as an optional
lookup, `none` meaning the Go code panics with an index out of range. -/
def recipientDomain (r : String) : Option String :=
  ((goSplit (Char.ofNat 64) r.data).get? 1).map (fun cs => String.mk cs)

/-- The gomail message composed for one recipient: fixed From identity,
the recipient as To, the alert Message as Subject and the alert Details as
the plain-text body. -/
def emailMessageFor (recipient : String) (alert : AlertState) : EmailMessage :=
  { From := "consul-alerting@noreply.com"
    FromName := "Consul Alerting"
    To := recipient
    Subject := alert.Message
    Body := alert.Details }

/-- The retry loop of EmailHandler.Alert.  `fails i` is the environment's
answer to the i-th DialAndSend call (true = error).  The Go loop runs while
`tries <= MaxRetries` and increments `tries` only on failure, so the
remaining iteration budget is `MaxRetries + 1 - tries`; `fuel` is that
budget and `i` the current attempt index.  Each failed attempt is logged
(two log.Error lines) and followed by a 5 second sleep; a successful
attempt breaks the loop. -/
def emailLoopGo (fails : Nat → Bool) (host : String) (m : EmailMessage) :
    Nat → Nat → List Event
  | 0, _ => []
  | fuel + 1, i =>
    if fails i then
      Event.sendMail host 25 "" "" m ::
      Event.logError "Error sending alert email: " ::
      Event.logError "Retrying email in 5s..." ::
      Event.sleep 5 ::
      emailLoopGo fails host m fuel (i + 1)
    else
      [Event.sendMail host 25 "" "" m]

/-- The send loop for one recipient, entered with tries = 0, i.e. with a
budget of MaxRetries + 1 attempts. -/
def emailSendLoop (fails : Nat → Bool) (host : String) (m : EmailMessage)
    (maxRetries : Nat) : List Event :=
  emailLoopGo fails host m (maxRetries + 1) 0

/-- The body of EmailHandler.Alert for one recipient.  `mx domain` is the
result of net.LookupMX (none = lookup error, which is logged and the
recipient skipped).  The Go code then reads `records[0].Host` unchecked;
an empty record list, like a recipient without an @-sign, yields `none`
(panic).  Otherwise it composes the message and runs the retry loop
against a plain dialer on the resolved host, port 25, with empty
credentials. -/
def emailPerRecipient (mx : String → Option (List String))
    (fails : String → Nat → Bool) (maxRetries : Nat) (alert : AlertState)
    (recipient : String) : Option (List Event) :=
  match recipientDomain recipient with
  | none => none
  | some domain =>
    match mx domain with
    | none => some [Event.logError "Error looking up email server: "]
    | some records =>
      match records.head? with
      | none => none
      | some host =>
        some (emailSendLoop (fails recipient) host (emailMessageFor recipient alert)
          maxRetries)

/-- The recipient loop of EmailHandler.Alert: process each recipient in
order, accumulating its trace; a panic (malformed recipient or empty MX
record list) aborts the whole call. -/
def emailAlertGo (mx : String → Option (List String))
    (fails : String → Nat → Bool) (maxRetries : Nat) (alert : AlertState) :
    List String → List Event × Outcome
  | [] => ([], Outcome.normal)
  | r :: rest =>
    match emailPerRecipient mx fails maxRetries alert r with
    | none => ([], Outcome.panicked)
    | some evs =>
      let p := emailAlertGo mx fails maxRetries alert rest
      (evs ++ p.1, p.2)

/-- EmailHandler.Alert over the configured recipient list. -/
def EmailHandler.Alert (handler : EmailHandler) (datacenter : String)
    (alert : AlertState) (mx : String → Option (List String))
    (fails : String → Nat → Bool) : List Event × Outcome :=
  emailAlertGo mx fails handler.MaxRetries alert handler.Recipients

/-! ## Pagerduty handler -/

/-- PagerdutyHandler configuration. -/
structure PagerdutyHandler where
  ServiceKey : String
  MaxRetries : Nat
deriving DecidableEq

/-- The incident key of PagerdutyHandler.Alert, unique to the datacenter
and the service/node alerted on. -/
def incidentKey (datacenter : String) (alert : AlertState) : String :=
  datacenter ++ "-" ++ alert.Service ++ "-" ++ alert.Tag ++ "-" ++ alert.Node

/-- PagerdutyHandler.Alert: trigger (with the key, the Message as
description, empty client fields and the Details) when the status is not
passing, otherwise resolve with the same key; then log each error of the
client response (`respErrors`, supplied by the environment)
individually. -/
def PagerdutyHandler.Alert (handler : PagerdutyHandler) (datacenter : String)
    (alert : AlertState) (respErrors : List String) : List Event × Outcome :=
  let key := incidentKey datacenter alert
  ((if alert.Status ≠ HealthPassing then
      [Event.pdTrigger key alert.Message "" "" alert.Details]
    else
      [Event.pdResolve key alert.Message alert.Details])
   ++ respErrors.map (fun e =>
        Event.logError ("Error sending alert to PagerDuty: " ++ e ++ " (details: "
          ++ alert.Details ++ ", message: " ++ alert.Message ++ ")")),
   Outcome.normal)

/-- The incident-management API calls appearing in a trace. -/
inductive PDCall where
  | trigger (incidentKey : String) (description : String) (clientStr : String)
      (clientURL : String) (details : String)
  | resolve (incidentKey : String) (description : String) (details : String)
deriving DecidableEq

/-- Extract the PagerDuty API call, if any, from one event. -/
def pdCallOf : Event → Option PDCall
  | Event.pdTrigger k d c u det => some (PDCall.trigger k d c u det)
  | Event.pdResolve k d det => some (PDCall.resolve k d det)
  | _ => none

/-- All PagerDuty API calls of a trace, in order. -/
def pdCalls (t : List Event) : List PDCall := t.filterMap pdCallOf

/-- The incident key a PagerDuty call carries. -/
def PDCall.key : PDCall → String
  | PDCall.trigger k _ _ _ _ => k
  | PDCall.resolve k _ _ => k

/-! ## Slack handler -/

/-- SlackHandler configuration. -/
structure SlackHandler where
  Token : String
  ChannelName : String
  MaxRetries : Nat
deriving DecidableEq

/-- fmt.Sprintf of the slackMessageFormat template (a raw string that
starts and ends with a newline: newline, the Message in asterisks, newline,
the Details, newline). -/
def slackMessage (alert : AlertState) : String :=
  "\n*" ++ alert.Message ++ "*\n" ++ alert.Details ++ "\n"

/-- The attachment built on each loop iteration: static branding fields,
the formatted text, and the current Unix timestamp. -/
def slackAttachment (message : String) (ts : Int) : Attachment :=
  { Color := "good"
    Fallback := ""
    AuthorName := "https://github.com/kyhavlov/consul-alerting"
    AuthorSubname := "github.com"
    AuthorLink := "https://github.com/kyhavlov"
    AuthorIcon := "https://avatars2.githubusercontent.com/u/4177697?s=400&v=4"
    Text := message
    Footer := "consul-alerting"
    FooterIcon := "https://platform.slack-edge.com/img/default_application_icon.png"
    Ts := ts }

/-- The retry loop of SlackHandler.Alert.  `now i` is time.Now().Unix() at
the i-th iteration and `sErr i` the result of slack.PostWebhook (some e =
error e).  On error the error is printed, logged with the channel name for
context, a retry notice is logged and the loop sleeps 5 seconds before the
next attempt; on success the loop breaks.  As in the email loop, `tries`
increments only on failure, so `fuel` is the remaining budget
`MaxRetries + 1 - tries`. -/
def slackLoopGo (token : String) (channel : String) (message : String)
    (now : Nat → Int) (sErr : Nat → Option String) : Nat → Nat → List Event
  | 0, _ => []
  | fuel + 1, i =>
    let msg : WebhookMessage := { Attachments := [slackAttachment message (now i)] }
    Event.slackPost token msg ::
      (match sErr i with
       | some e =>
         Event.printLine e ::
         Event.logError ("Error sending alert to Slack (channel: " ++ channel
           ++ "): " ++ e) ::
         Event.logError "Retrying alert to slack in 5s..." ::
         Event.sleep 5 ::
         slackLoopGo token channel message now sErr fuel (i + 1)
       | none => [])

/-- SlackHandler.Alert: format the message once, then run the webhook
retry loop with a budget of MaxRetries + 1 attempts. -/
def SlackHandler.Alert (handler : SlackHandler) (datacenter : String)
    (alert : AlertState) (now : Nat → Int) (sErr : Nat → Option String) :
    List Event × Outcome :=
  (slackLoopGo handler.Token handler.ChannelName (slackMessage alert) now sErr
    (handler.MaxRetries + 1) 0, Outcome.normal)

/-! ## Trace observations -/

/-- Whether an event is an SMTP delivery attempt. -/
def isSendMail : Event → Bool
  | Event.sendMail _ _ _ _ _ => true
  | _ => false

/-- Whether an event is a sleep. -/
def isSleep : Event → Bool
  | Event.sleep _ => true
  | _ => false

/-- Number of SMTP delivery attempts in a trace. -/
def sendCount (t : List Event) : Nat := t.countP isSendMail

/-- Number of sleeps in a trace. -/
def sleepCount (t : List Event) : Nat := t.countP isSleep

/-- The webhook posts of a trace: token and payload of each slackPost
event, in order. -/
def slackPosts (t : List Event) : List (String × WebhookMessage) :=
  t.filterMap (fun e =>
    match e with
    | Event.slackPost tok m => some (tok, m)
    | _ => none)

/-- Number of webhook post attempts in a trace. -/
def postCount (t : List Event) : Nat := (slackPosts t).length

/-! ## State-threading forms of the four Alert methods

In Go each Alert method receives the handler by value and the alert by
pointer; the method bodies contain no assignment to any alert field or any
handler field, so threading that state through the translation returns it
unchanged alongside the trace. -/

/-- StdoutHandler.Alert with the handler and alert state threaded
through. -/
def StdoutHandler.AlertSt (handler : StdoutHandler) (datacenter : String)
    (alert : AlertState) : (List Event × Outcome) × StdoutHandler × AlertState :=
  (StdoutHandler.Alert handler datacenter alert, handler, alert)

/-- EmailHandler.Alert with the handler and alert state threaded
through. -/
def EmailHandler.AlertSt (handler : EmailHandler) (datacenter : String)
    (alert : AlertState) (mx : String → Option (List String))
    (fails : String → Nat → Bool) :
    (List Event × Outcome) × EmailHandler × AlertState :=
  (EmailHandler.Alert handler datacenter alert mx fails, handler, alert)

/-- PagerdutyHandler.Alert with the handler and alert state threaded
through. -/
def PagerdutyHandler.AlertSt (handler : PagerdutyHandler) (datacenter : String)
    (alert : AlertState) (respErrors : List String) :
    (List Event × Outcome) × PagerdutyHandler × AlertState :=
  (PagerdutyHandler.Alert handler datacenter alert respErrors, handler, alert)

/-- SlackHandler.Alert with the handler and alert state threaded
through. -/
def SlackHandler.AlertSt (handler : SlackHandler) (datacenter : String)
    (alert : AlertState) (now : Nat → Int) (sErr : Nat → Option String) :
    (List Event × Outcome) × SlackHandler × AlertState :=
  (SlackHandler.Alert handler datacenter alert now sErr, handler, alert)

end ConsulAlerting

namespace ConsulAlerting

/-! ## Helper lemmas -/

lemma pdCalls_append (s t : List Event) : pdCalls (s ++ t) = pdCalls s ++ pdCalls t := by
  simp [pdCalls, List.filterMap_append]

lemma pdCalls_errlogs (l : List String) (f : String → String) :
    pdCalls (l.map fun e => Event.logError (f e)) = [] := by
  induction l with
  | nil => rfl
  | cons x xs ih => simpa [pdCalls, pdCallOf] using ih

lemma pdCalls_alert (h : PagerdutyHandler) (dc : String) (a : AlertState)
    (errs : List String) :
    pdCalls (PagerdutyHandler.Alert h dc a errs).1 =
      if a.Status ≠ HealthPassing then
        [PDCall.trigger (incidentKey dc a) a.Message "" "" a.Details]
      else
        [PDCall.resolve (incidentKey dc a) a.Message a.Details] := by
  by_cases hst : a.Status = HealthPassing <;>
    simp [PagerdutyHandler.Alert, pdCalls_append, pdCalls_errlogs, hst, pdCalls, pdCallOf]

lemma emailLoopGo_counts_all_fail (fails : Nat → Bool) (host : String)
    (m : EmailMessage) :
    ∀ fuel i, (∀ j, j < fuel → fails (i + j) = true) →
      sendCount (emailLoopGo fails host m fuel i) = fuel ∧
      sleepCount (emailLoopGo fails host m fuel i) = fuel := by
  intro fuel
  induction fuel with
  | zero => intro i _; simp [emailLoopGo, sendCount, sleepCount]
  | succ n ih =>
    intro i h
    have h0 : fails i = true := by simpa using h 0 (Nat.succ_pos n)
    have h1 : ∀ j, j < n → fails (i + 1 + j) = true := by
      intro j hj
      have := h (j + 1) (by omega)
      rwa [show i + (j + 1) = i + 1 + j by omega] at this
    have ihx := ih (i + 1) h1
    simp [emailLoopGo, h0, sendCount, sleepCount, List.countP_cons, isSendMail,
      isSleep] at ihx ⊢
    omega

lemma emailLoopGo_counts_first_succ (fails : Nat → Bool) (host : String)
    (m : EmailMessage) :
    ∀ fuel i k, k < fuel → (∀ j, j < k → fails (i + j) = true) →
      fails (i + k) = false →
      sendCount (emailLoopGo fails host m fuel i) = k + 1 ∧
      sleepCount (emailLoopGo fails host m fuel i) = k := by
  intro fuel
  induction fuel with
  | zero => intro i k hk; omega
  | succ n ih =>
    intro i k hk hfail hsucc
    cases k with
    | zero =>
      have h0 : fails i = false := by simpa using hsucc
      simp [emailLoopGo, h0, sendCount, sleepCount, List.countP_cons, isSendMail, isSleep]
    | succ k₀ =>
      have h0 : fails i = true := by simpa using hfail 0 (Nat.succ_pos k₀)
      have h1 : ∀ j, j < k₀ → fails (i + 1 + j) = true := by
        intro j hj
        have := hfail (j + 1) (by omega)
        rwa [show i + (j + 1) = i + 1 + j by omega] at this
      have h2 : fails (i + 1 + k₀) = false := by
        rwa [show i + (k₀ + 1) = i + 1 + k₀ by omega] at hsucc
      have ihx := ih (i + 1) k₀ (by omega) h1 h2
      simp [emailLoopGo, h0, sendCount, sleepCount, List.countP_cons, isSendMail,
        isSleep] at ihx ⊢
      omega

lemma slackLoopGo_counts_all_fail (token channel message : String)
    (now : Nat → Int) (sErr : Nat → Option String) :
    ∀ fuel i, (∀ j, j < fuel → (sErr (i + j)).isSome) →
      postCount (slackLoopGo token channel message now sErr fuel i) = fuel ∧
      sleepCount (slackLoopGo token channel message now sErr fuel i) = fuel := by
  intro fuel
  induction fuel with
  | zero => intro i _; simp [slackLoopGo, postCount, slackPosts, sleepCount]
  | succ n ih =>
    intro i h
    obtain ⟨e, he⟩ := Option.isSome_iff_exists.mp (by simpa using h 0 (Nat.succ_pos n))
    have h1 : ∀ j, j < n → (sErr (i + 1 + j)).isSome := by
      intro j hj
      have := h (j + 1) (by omega)
      rwa [show i + (j + 1) = i + 1 + j by omega] at this
    have ihx := ih (i + 1) h1
    simp [slackLoopGo, he, postCount, slackPosts, sleepCount, List.countP_cons,
      List.filterMap_cons, isSleep] at ihx ⊢
    omega

lemma slackLoopGo_counts_first_succ (token channel message : String)
    (now : Nat → Int) (sErr : Nat → Option String) :
    ∀ fuel i k, k < fuel → (∀ j, j < k → (sErr (i + j)).isSome) →
      sErr (i + k) = none →
      postCount (slackLoopGo token channel message now sErr fuel i) = k + 1 ∧
      sleepCount (slackLoopGo token channel message now sErr fuel i) = k := by
  intro fuel
  induction fuel with
  | zero => intro i k hk; omega
  | succ n ih =>
    intro i k hk hfail hsucc
    cases k with
    | zero =>
      have h0 : sErr i = none := by simpa using hsucc
      simp [slackLoopGo, h0, postCount, slackPosts, sleepCount, List.countP_cons,
        List.filterMap_cons, isSleep]
    | succ k₀ =>
      obtain ⟨e, he⟩ := Option.isSome_iff_exists.mp (by simpa using hfail 0 (Nat.succ_pos k₀))
      have h1 : ∀ j, j < k₀ → (sErr (i + 1 + j)).isSome := by
        intro j hj
        have := hfail (j + 1) (by omega)
        rwa [show i + (j + 1) = i + 1 + j by omega] at this
      have h2 : sErr (i + 1 + k₀) = none := by
        rwa [show i + (k₀ + 1) = i + 1 + k₀ by omega] at hsucc
      have ihx := ih (i + 1) k₀ (by omega) h1 h2
      simp [slackLoopGo, he, postCount, slackPosts, sleepCount, List.countP_cons,
        List.filterMap_cons, isSleep] at ihx ⊢
      omega

lemma emitLines_map_error (L : List String) :
    emitLines "error" L = (L.map Event.logError, Outcome.normal) := by
  induction L with
  | nil => rfl
  | cons x rest ih => simp [emitLines, ih]

lemma emitLines_map_warn (L : List String) :
    emitLines "warn" L = (L.map Event.logWarn, Outcome.normal) := by
  induction L with
  | nil => rfl
  | cons x rest ih => simp [emitLines, ih]

lemma emitLines_map_warning (L : List String) :
    emitLines "warning" L = (L.map Event.logWarn, Outcome.normal) := by
  induction L with
  | nil => rfl
  | cons x rest ih => simp [emitLines, ih]

lemma emitLines_map_info (L : List String) :
    emitLines "info" L = (L.map Event.logInfo, Outcome.normal) := by
  induction L with
  | nil => rfl
  | cons x rest ih => simp [emitLines, ih]

lemma emitLines_map_debug (L : List String) :
    emitLines "debug" L = (L.map Event.logDebug, Outcome.normal) := by
  induction L with
  | nil => rfl
  | cons x rest ih => simp [emitLines, ih]

lemma emitLines_unknown (lvl : String) (L : List String)
    (h1 : lvl ≠ "panic") (h2 : lvl ≠ "fatal") (h3 : lvl ≠ "error")
    (h4 : lvl ≠ "warn") (h5 : lvl ≠ "warning") (h6 : lvl ≠ "info")
    (h7 : lvl ≠ "debug") : emitLines lvl L = ([], Outcome.normal) := by
  induction L with
  | nil => rfl
  | cons x rest ih => simp [emitLines, h1, h2, h3, h4, h5, h6, h7, ih]

lemma emitLines_outcome_normal (lvl : String) (L : List String)
    (hp : lvl ≠ "panic") (hf : lvl ≠ "fatal") :
    (emitLines lvl L).2 = Outcome.normal := by
  induction L with
  | nil => rfl
  | cons x rest ih =>
    by_cases h3 : lvl = "error"
    · simp [emitLines, hp, hf, h3, emitLines_map_error]
    by_cases h4 : lvl = "warn"
    · simp [emitLines, hp, hf, h3, h4, emitLines_map_warn]
    by_cases h5 : lvl = "warning"
    · simp [emitLines, hp, hf, h3, h4, h5, emitLines_map_warning]
    by_cases h6 : lvl = "info"
    · simp [emitLines, hp, hf, h3, h4, h5, h6, emitLines_map_info]
    by_cases h7 : lvl = "debug"
    · simp [emitLines, hp, hf, h3, h4, h5, h6, h7, emitLines_map_debug]
    simp [emitLines_unknown lvl (x :: rest) hp hf h3 h4 h5 h6 h7]

lemma stdoutLines_cons (a : AlertState) :
    stdoutLines a = a.Message ::
      (if a.Details ≠ "" then goSplitStr (Char.ofNat 10) a.Details else []) := rfl

lemma emailPerRecipient_isSome (mx : String → Option (List String))
    (fails : String → Nat → Bool) (maxRetries : Nat) (alert : AlertState)
    (r : String) (hr : (recipientDomain r).isSome)
    (hmx : ∀ d l, mx d = some l → l ≠ []) :
    (emailPerRecipient mx fails maxRetries alert r).isSome := by
  obtain ⟨d, hd⟩ := Option.isSome_iff_exists.mp hr
  cases hm : mx d with
  | none => simp [emailPerRecipient, hd, hm]
  | some records =>
    cases hh : records.head? with
    | none =>
      exact absurd (List.head?_eq_none_iff.mp hh) (hmx d records hm)
    | some host => simp [emailPerRecipient, hd, hm, hh]

lemma emailAlertGo_join (mx : String → Option (List String))
    (fails : String → Nat → Bool) (maxRetries : Nat) (alert : AlertState) :
    ∀ rs : List String,
      (∀ r ∈ rs, (emailPerRecipient mx fails maxRetries alert r).isSome) →
      emailAlertGo mx fails maxRetries alert rs =
        ((rs.map (fun r => (emailPerRecipient mx fails maxRetries alert r).getD [])).flatten,
          Outcome.normal) := by
  intro rs
  induction rs with
  | nil => intro _; rfl
  | cons r rest ih =>
    intro h
    obtain ⟨evs, hevs⟩ := Option.isSome_iff_exists.mp (h r (List.mem_cons_self r rest))
    have ihx := ih (fun x hx => h x (List.mem_cons_of_mem r hx))
    simp [emailAlertGo, hevs, ihx]

lemma emailLoopGo_sendMail_shape (fails : Nat → Bool) (host : String)
    (m : EmailMessage) :
    ∀ fuel i e, e ∈ emailLoopGo fails host m fuel i → isSendMail e = true →
      e = Event.sendMail host 25 "" "" m := by
  intro fuel
  induction fuel with
  | zero => intro i e he; simp [emailLoopGo] at he
  | succ n ih =>
    intro i e he hs
    by_cases hf : fails i
    · simp only [emailLoopGo, hf, if_pos, List.mem_cons] at he
      rcases he with rfl | rfl | rfl | rfl | he
      · rfl
      · simp [isSendMail] at hs
      · simp [isSendMail] at hs
      · simp [isSendMail] at hs
      · exact ih (i + 1) e he hs
    · rw [emailLoopGo, if_neg hf] at he
      rw [List.mem_singleton.mp he]

lemma emailSendLoop_pos (fails : Nat → Bool) (host : String) (m : EmailMessage)
    (maxRetries : Nat) : 1 ≤ sendCount (emailSendLoop fails host m maxRetries) := by
  by_cases hf : fails 0 <;>
    simp [emailSendLoop, emailLoopGo, hf, sendCount, List.countP_cons, isSendMail]

lemma slackPosts_slackLoopGo (token channel message : String) (now : Nat → Int)
    (sErr : Nat → Option String) :
    ∀ fuel i p, p ∈ slackPosts (slackLoopGo token channel message now sErr fuel i) →
      p.1 = token ∧ ∃ j, p.2 = WebhookMessage.mk [slackAttachment message (now j)] := by
  intro fuel
  induction fuel with
  | zero => intro i p hp; simp [slackLoopGo, slackPosts] at hp
  | succ n ih =>
    intro i p hp
    cases he : sErr i with
    | some e =>
      simp only [slackLoopGo, he, slackPosts, List.filterMap_cons] at hp
      simp only [List.mem_cons] at hp
      rcases hp with rfl | hp
      · exact ⟨rfl, i, rfl⟩
      · exact ih (i + 1) p hp
    | none =>
      simp [slackLoopGo, he, slackPosts, List.filterMap_cons] at hp
      subst hp
      exact ⟨rfl, i, rfl⟩

lemma slackPosts_channel_invariant (token c1 c2 message : String) (now : Nat → Int)
    (sErr : Nat → Option String) :
    ∀ fuel i, slackPosts (slackLoopGo token c1 message now sErr fuel i) =
      slackPosts (slackLoopGo token c2 message now sErr fuel i) := by
  intro fuel
  induction fuel with
  | zero => intro i; rfl
  | succ n ih =>
    intro i
    cases he : sErr i with
    | some e =>
      simp [slackLoopGo, he, slackPosts, List.filterMap_cons]
      exact ih (i + 1)
    | none => simp [slackLoopGo, he, slackPosts, List.filterMap_cons]

lemma slack_postCount_pos (h : SlackHandler) (dc : String) (a : AlertState)
    (now : Nat → Int) (sErr : Nat → Option String) :
    1 ≤ postCount (SlackHandler.Alert h dc a now sErr).1 := by
  cases he : sErr 0 with
  | some e =>
    simp [SlackHandler.Alert, slackLoopGo, he, postCount, slackPosts, List.filterMap_cons]
  | none =>
    simp [SlackHandler.Alert, slackLoopGo, he, postCount, slackPosts, List.filterMap_cons]

/-! ## C1 and C2: the PagerDuty handler -/

/-- C1: the incident key computed by PagerdutyHandler.Alert is the
concatenation datacenter-Service-Tag-Node; it is a pure function of exactly
those four values (a1 and a2 may differ arbitrarily in Status, Message and
Details), and both the trigger call and the resolve call issued by Alert
carry exactly this key, so a trigger and a later resolve for the same
tuple use the identical key. -/
theorem incidentKey_deterministic (dc : String) (a1 a2 : AlertState)
    (hS : a1.Service = a2.Service) (hT : a1.Tag = a2.Tag) (hN : a1.Node = a2.Node) :
    incidentKey dc a1 = dc ++ "-" ++ a1.Service ++ "-" ++ a1.Tag ++ "-" ++ a1.Node ∧
    incidentKey dc a1 = incidentKey dc a2 ∧
    (∀ h errs, (pdCalls (PagerdutyHandler.Alert h dc a1 errs).1).map PDCall.key =
      [incidentKey dc a1]) ∧
    (∀ h errs, (pdCalls (PagerdutyHandler.Alert h dc a2 errs).1).map PDCall.key =
      [incidentKey dc a1]) := by
  refine ⟨rfl, ?_, ?_, ?_⟩
  · simp [incidentKey, hS, hT, hN]
  · intro h errs
    rw [pdCalls_alert]
    by_cases hst : a1.Status = HealthPassing <;> simp [hst, PDCall.key]
  · intro h errs
    rw [pdCalls_alert]
    have hkey : incidentKey dc a2 = incidentKey dc a1 := by simp [incidentKey, hS, hT, hN]
    by_cases hst : a2.Status = HealthPassing <;> simp [hst, PDCall.key, hkey]

/-- Witness for incidentKey_deterministic: the spec's example scenario, a
critical alert and a later passing alert for the same entity in us-east. -/
theorem incidentKey_deterministic_witness :
    incidentKey "us-east" ⟨"web", "v2", "node-1", "critical", "web unhealthy", "d1"⟩ =
      "us-east-web-v2-node-1" ∧
    (pdCalls (PagerdutyHandler.Alert ⟨"key", 3⟩ "us-east"
        ⟨"web", "v2", "node-1", "passing", "ok", "d2"⟩ []).1).map PDCall.key =
      ["us-east-web-v2-node-1"] := by
  have h := incidentKey_deterministic "us-east"
    ⟨"web", "v2", "node-1", "critical", "web unhealthy", "d1"⟩
    ⟨"web", "v2", "node-1", "passing", "ok", "d2"⟩ rfl rfl rfl
  refine ⟨?_, ?_⟩
  · have h1 := h.1
    simpa using h1
  · have h4 := h.2.2.2 ⟨"key", 3⟩ []
    have h1 := h.1
    rw [h1] at h4
    simpa using h4

/-- C2: PagerdutyHandler.Alert issues exactly one incident-management API
call: a trigger carrying the incident key, the Message as description and
the Details, when the status is not passing; a resolve with the same key
when the status is passing. -/
theorem pagerduty_alert_single_call (h : PagerdutyHandler) (dc : String)
    (a : AlertState) (errs : List String) :
    (pdCalls (PagerdutyHandler.Alert h dc a errs).1).length = 1 ∧
    (a.Status ≠ HealthPassing →
      pdCalls (PagerdutyHandler.Alert h dc a errs).1 =
        [PDCall.trigger (incidentKey dc a) a.Message "" "" a.Details]) ∧
    (a.Status = HealthPassing →
      pdCalls (PagerdutyHandler.Alert h dc a errs).1 =
        [PDCall.resolve (incidentKey dc a) a.Message a.Details]) := by
  rw [pdCalls_alert]
  by_cases hst : a.Status = HealthPassing <;> simp [hst]

/-- Witness for pagerduty_alert_single_call: a critical alert yields
exactly the one trigger call, a passing alert exactly the one resolve. -/
theorem pagerduty_alert_single_call_witness :
    pdCalls (PagerdutyHandler.Alert ⟨"key", 3⟩ "us-east"
        ⟨"web", "v2", "node-1", "critical", "web unhealthy", "d"⟩ ["e1"]).1 =
      [PDCall.trigger "us-east-web-v2-node-1" "web unhealthy" "" "" "d"] ∧
    pdCalls (PagerdutyHandler.Alert ⟨"key", 3⟩ "us-east"
        ⟨"web", "v2", "node-1", "passing", "ok", "d"⟩ []).1 =
      [PDCall.resolve "us-east-web-v2-node-1" "ok" "d"] := by
  constructor
  · have h := (pagerduty_alert_single_call ⟨"key", 3⟩ "us-east"
      ⟨"web", "v2", "node-1", "critical", "web unhealthy", "d"⟩ ["e1"]).2.1 (by decide)
    simpa [incidentKey] using h
  · have h := (pagerduty_alert_single_call ⟨"key", 3⟩ "us-east"
      ⟨"web", "v2", "node-1", "passing", "ok", "d"⟩ []).2.2 rfl
    simpa [incidentKey] using h

/-! ## C3: retry attempt counts -/

/-- C3: for the email per-recipient send loop (entered after a successful
MX lookup) and the slack handler invocation, with MaxRetries = m, the
number of delivery attempts is exactly min of the attempts until the first
success and m + 1: if the first success is attempt k + 1 (zero-based index
k <= m) exactly k + 1 = min (k + 1) (m + 1) attempts happen and the k
failures each sleep 5 seconds; if every attempt fails, exactly m + 1
attempts happen, each failure followed by a sleep. -/
theorem retry_attempt_count (m : Nat) (failsE : Nat → Bool)
    (host : String) (msg : EmailMessage) (h : SlackHandler) (dc : String)
    (a : AlertState) (now : Nat → Int) (sErr : Nat → Option String)
    (hm : h.MaxRetries = m) :
    ((∀ j, j < m + 1 → failsE j = true) →
      sendCount (emailSendLoop failsE host msg m) = m + 1 ∧
      sleepCount (emailSendLoop failsE host msg m) = m + 1) ∧
    (∀ k, k ≤ m → (∀ j, j < k → failsE j = true) → failsE k = false →
      sendCount (emailSendLoop failsE host msg m) = min (k + 1) (m + 1) ∧
      sleepCount (emailSendLoop failsE host msg m) = k) ∧
    ((∀ j, j < m + 1 → (sErr j).isSome) →
      postCount (SlackHandler.Alert h dc a now sErr).1 = m + 1 ∧
      sleepCount (SlackHandler.Alert h dc a now sErr).1 = m + 1) ∧
    (∀ k, k ≤ m → (∀ j, j < k → (sErr j).isSome) → sErr k = none →
      postCount (SlackHandler.Alert h dc a now sErr).1 = min (k + 1) (m + 1) ∧
      sleepCount (SlackHandler.Alert h dc a now sErr).1 = k) := by
  refine ⟨?_, ?_, ?_, ?_⟩
  · intro hall
    exact emailLoopGo_counts_all_fail failsE host msg (m + 1) 0
      (fun j hj => by simpa using hall j hj)
  · intro k hk hfail hsucc
    have := emailLoopGo_counts_first_succ failsE host msg (m + 1) 0 k (by omega)
      (fun j hj => by simpa using hfail j hj) (by simpa using hsucc)
    rw [show min (k + 1) (m + 1) = k + 1 by omega]
    exact ⟨this.1, this.2⟩
  · intro hall
    have := slackLoopGo_counts_all_fail h.Token h.ChannelName (slackMessage a) now sErr
      (m + 1) 0 (fun j hj => by simpa using hall j hj)
    simpa [SlackHandler.Alert, hm] using this
  · intro k hk hfail hsucc
    have := slackLoopGo_counts_first_succ h.Token h.ChannelName (slackMessage a) now sErr
      (m + 1) 0 k (by omega) (fun j hj => by simpa using hfail j hj) (by simpa using hsucc)
    rw [show min (k + 1) (m + 1) = k + 1 by omega]
    simpa [SlackHandler.Alert, hm] using this

/-- Witness for retry_attempt_count at MaxRetries = 2: an always-failing
send makes 3 attempts with 3 sleeps, a send that first succeeds on the
second attempt makes 2 attempts with 1 sleep; likewise for the slack
webhook post loop. -/
theorem retry_attempt_count_witness :
    sendCount (emailSendLoop (fun _ => true) "mx.example.com"
      (emailMessageFor "a@example.com" ⟨"s", "t", "n", "critical", "m", "d"⟩) 2) = 3 ∧
    sendCount (emailSendLoop (fun j => decide (j < 1)) "mx.example.com"
      (emailMessageFor "a@example.com" ⟨"s", "t", "n", "critical", "m", "d"⟩) 2) = 2 ∧
    postCount (SlackHandler.Alert ⟨"tok", "chan", 2⟩ "dc"
      ⟨"s", "t", "n", "critical", "m", "d"⟩ (fun _ => 7)
      (fun _ => some "err")).1 = 3 ∧
    postCount (SlackHandler.Alert ⟨"tok", "chan", 2⟩ "dc"
      ⟨"s", "t", "n", "critical", "m", "d"⟩ (fun _ => 7)
      (fun j => if j < 1 then some "err" else none)).1 = 2 := by
  refine ⟨?_, ?_, ?_, ?_⟩
  · exact ((retry_attempt_count 2 (fun _ => true) "mx.example.com"
      (emailMessageFor "a@example.com" ⟨"s", "t", "n", "critical", "m", "d"⟩)
      ⟨"tok", "chan", 2⟩ "dc" ⟨"s", "t", "n", "critical", "m", "d"⟩ (fun _ => 7)
      (fun _ => some "err") rfl).1 (fun j _ => rfl)).1
  · have := ((retry_attempt_count 2 (fun j => decide (j < 1)) "mx.example.com"
      (emailMessageFor "a@example.com" ⟨"s", "t", "n", "critical", "m", "d"⟩)
      ⟨"tok", "chan", 2⟩ "dc" ⟨"s", "t", "n", "critical", "m", "d"⟩ (fun _ => 7)
      (fun _ => some "err") rfl).2.1 1 (by decide)
      (fun j hj => by interval_cases j <;> decide) (by decide)).1
    simpa using this
  · exact ((retry_attempt_count 2 (fun _ => true) "mx.example.com"
      (emailMessageFor "a@example.com" ⟨"s", "t", "n", "critical", "m", "d"⟩)
      ⟨"tok", "chan", 2⟩ "dc" ⟨"s", "t", "n", "critical", "m", "d"⟩ (fun _ => 7)
      (fun _ => some "err") rfl).2.2.1 (fun j _ => rfl)).1
  · have := ((retry_attempt_count 2 (fun _ => true) "mx.example.com"
      (emailMessageFor "a@example.com" ⟨"s", "t", "n", "critical", "m", "d"⟩)
      ⟨"tok", "chan", 2⟩ "dc" ⟨"s", "t", "n", "critical", "m", "d"⟩ (fun _ => 7)
      (fun j => if j < 1 then some "err" else none) rfl).2.2.2 1 (by decide)
      (fun j hj => by interval_cases j <;> simp) (by simp)).1
    simpa using this

/-! ## C6: the Stdout handler -/

/-- C6 counterexample: with the configured level "panic" (a member of the
recognized set) and Details "a\nb", the handler does not emit the Message
plus both detail lines: logrus Panic aborts after logging the Message, so
the trace is the single panic log, not the three claimed entries. -/
theorem stdout_emission_cex :
    StdoutHandler.Alert ⟨"panic"⟩ "dc" ⟨"web", "v2", "n1", "critical", "m", "a\nb"⟩ =
      ([Event.logPanic "m"], Outcome.panicked) ∧
    (StdoutHandler.Alert ⟨"panic"⟩ "dc" ⟨"web", "v2", "n1", "critical", "m", "a\nb"⟩).1 ≠
      [Event.logPanic "m", Event.logPanic "a", Event.logPanic "b"] := by
  decide

/-- C6 amended: at the case-insensitively matched levels error, warn,
warning, info and debug, the handler emits the Message followed by each
newline-split line of Details (Details contributing nothing when empty),
all at that level; at level panic (resp. fatal) it emits only the Message
as a panic (resp. fatal) log and then panics (resp. exits the process);
for any level outside the recognized set nothing is emitted. -/
theorem stdout_emission_amended (h : StdoutHandler) (dc : String) (a : AlertState) :
    (goToLower h.LogLevel = "error" →
      StdoutHandler.Alert h dc a = ((stdoutLines a).map Event.logError, Outcome.normal)) ∧
    (goToLower h.LogLevel = "warn" →
      StdoutHandler.Alert h dc a = ((stdoutLines a).map Event.logWarn, Outcome.normal)) ∧
    (goToLower h.LogLevel = "warning" →
      StdoutHandler.Alert h dc a = ((stdoutLines a).map Event.logWarn, Outcome.normal)) ∧
    (goToLower h.LogLevel = "info" →
      StdoutHandler.Alert h dc a = ((stdoutLines a).map Event.logInfo, Outcome.normal)) ∧
    (goToLower h.LogLevel = "debug" →
      StdoutHandler.Alert h dc a = ((stdoutLines a).map Event.logDebug, Outcome.normal)) ∧
    (goToLower h.LogLevel = "panic" →
      StdoutHandler.Alert h dc a = ([Event.logPanic a.Message], Outcome.panicked)) ∧
    (goToLower h.LogLevel = "fatal" →
      StdoutHandler.Alert h dc a = ([Event.logFatal a.Message], Outcome.exited)) ∧
    (goToLower h.LogLevel ∉ ["panic", "fatal", "error", "warn", "warning", "info", "debug"] →
      StdoutHandler.Alert h dc a = ([], Outcome.normal)) ∧
    stdoutLines a = a.Message ::
      (if a.Details ≠ "" then goSplitStr (Char.ofNat 10) a.Details else []) := by
  refine ⟨?_, ?_, ?_, ?_, ?_, ?_, ?_, ?_, stdoutLines_cons a⟩ <;> intro hl
  · rw [StdoutHandler.Alert, hl]; exact emitLines_map_error _
  · rw [StdoutHandler.Alert, hl]; exact emitLines_map_warn _
  · rw [StdoutHandler.Alert, hl]; exact emitLines_map_warning _
  · rw [StdoutHandler.Alert, hl]; exact emitLines_map_info _
  · rw [StdoutHandler.Alert, hl]; exact emitLines_map_debug _
  · rw [StdoutHandler.Alert, hl, stdoutLines_cons]; simp [emitLines]
  · rw [StdoutHandler.Alert, hl, stdoutLines_cons]; simp [emitLines]
  · rw [StdoutHandler.Alert]
    simp only [List.mem_cons, List.mem_singleton] at hl
    push_neg at hl
    obtain ⟨h1, h2, h3, h4, h5, h6, h7⟩ := hl
    exact emitLines_unknown _ _ h1 h2 h3 h4 h5 h6 (by simpa using h7)

/-- Witness for stdout_emission_amended: the spec's console example, level
"WARN" (case-insensitively warn) with a two-line Details, emits three
warn-level entries, Message first; and an unrecognized level emits
nothing. -/
theorem stdout_emission_amended_witness :
    StdoutHandler.Alert ⟨"WARN"⟩ "dc" ⟨"web", "v2", "n1", "critical", "m", "line1\nline2"⟩ =
      ([Event.logWarn "m", Event.logWarn "line1", Event.logWarn "line2"], Outcome.normal) ∧
    StdoutHandler.Alert ⟨"nonsense"⟩ "dc" ⟨"web", "v2", "n1", "critical", "m", "d"⟩ =
      ([], Outcome.normal) := by
  constructor
  · have h := (stdout_emission_amended ⟨"WARN"⟩ "dc"
      ⟨"web", "v2", "n1", "critical", "m", "line1\nline2"⟩).2.1 (by decide)
    rw [h]
    decide
  · exact (stdout_emission_amended ⟨"nonsense"⟩ "dc"
      ⟨"web", "v2", "n1", "critical", "m", "d"⟩).2.2.2.2.2.2.2.1 (by decide)

/-! ## C4: no handler raises to the dispatcher -/

/-- C4 counterexample: StdoutHandler configured at level "panic" does not
return normally: logrus Panic raises a panic that propagates to the
caller, so the universal never-raises claim fails for this handler
variant. -/
theorem alert_no_raise_cex :
    (StdoutHandler.Alert ⟨"panic"⟩ "dc" ⟨"web", "v2", "n1", "critical", "m", "d"⟩).2 =
      Outcome.panicked ∧
    Outcome.panicked ≠ Outcome.normal := by
  decide

/-- C4 amended: delivery failures never raise: for every oracle (every
pattern of MX failures, send failures, webhook failures and client
response errors) the Email handler (on recipients containing an @-sign,
with non-empty MX answers), the Pagerduty handler and the Slack handler
all return normally; the Stdout handler returns normally exactly when its
level is not the operator-configured panic escalation (which raises) and
not fatal (which terminates the process). -/
theorem alert_no_raise_amended (hS : StdoutHandler) (hE : EmailHandler)
    (hP : PagerdutyHandler) (hSl : SlackHandler) (dc : String) (a : AlertState)
    (mx : String → Option (List String)) (fails : String → Nat → Bool)
    (now : Nat → Int) (sErr : Nat → Option String) (errs : List String)
    (hrec : ∀ r ∈ hE.Recipients, (recipientDomain r).isSome)
    (hmx : ∀ d l, mx d = some l → l ≠ []) :
    (EmailHandler.Alert hE dc a mx fails).2 = Outcome.normal ∧
    (PagerdutyHandler.Alert hP dc a errs).2 = Outcome.normal ∧
    (SlackHandler.Alert hSl dc a now sErr).2 = Outcome.normal ∧
    ((StdoutHandler.Alert hS dc a).2 = Outcome.normal ↔
      goToLower hS.LogLevel ≠ "panic" ∧ goToLower hS.LogLevel ≠ "fatal") := by
  refine ⟨?_, rfl, rfl, ?_⟩
  · rw [EmailHandler.Alert, emailAlertGo_join mx fails hE.MaxRetries a hE.Recipients
      (fun r hr => emailPerRecipient_isSome mx fails hE.MaxRetries a r (hrec r hr) hmx)]
  · constructor
    · intro hn
      constructor
      · intro hp
        rw [StdoutHandler.Alert, hp, stdoutLines_cons] at hn
        simp [emitLines] at hn
      · intro hf
        rw [StdoutHandler.Alert, hf, stdoutLines_cons] at hn
        simp [emitLines] at hn
    · intro ⟨hp, hf⟩
      rw [StdoutHandler.Alert]
      exact emitLines_outcome_normal _ _ hp hf

/-- Witness for alert_no_raise_amended: concrete configurations of all
four handlers, an always-failing send oracle and an error-level console,
all returning normally. -/
theorem alert_no_raise_amended_witness :
    (EmailHandler.Alert ⟨["a@example.com"], 2⟩ "dc" ⟨"s", "t", "n", "critical", "m", "d"⟩
      (fun _ => some ["mx.example.com"]) (fun _ _ => true)).2 = Outcome.normal ∧
    (StdoutHandler.Alert ⟨"error"⟩ "dc" ⟨"s", "t", "n", "critical", "m", "d"⟩).2 =
      Outcome.normal := by
  have h := alert_no_raise_amended ⟨"error"⟩ ⟨["a@example.com"], 2⟩ ⟨"key", 1⟩
    ⟨"tok", "chan", 1⟩ "dc" ⟨"s", "t", "n", "critical", "m", "d"⟩
    (fun _ => some ["mx.example.com"]) (fun _ _ => true) (fun _ => 7) (fun _ => none) []
    (by decide)
    (by
      intro d l hl
      simp only [Option.some.injEq] at hl
      subst hl
      simp)
  exact ⟨h.1, h.2.2.2.mpr (by decide)⟩

/-! ## C5: per-recipient isolation in the email handler -/

/-- C5: on well-formed recipients (each containing an @-sign) with
non-empty MX answers, the trace of EmailHandler.Alert is the concatenation
of one independent per-recipient trace each, so no recipient's failures
(lookup failure or exhausted retries) can suppress the attempts of any
later recipient; a recipient whose MX lookup fails contributes exactly one
error log and zero delivery attempts, and the call still continues
normally. -/
theorem email_recipient_isolation (hE : EmailHandler) (dc : String) (a : AlertState)
    (mx : String → Option (List String)) (fails : String → Nat → Bool)
    (hrec : ∀ r ∈ hE.Recipients, (recipientDomain r).isSome)
    (hmx : ∀ d l, mx d = some l → l ≠ []) :
    EmailHandler.Alert hE dc a mx fails =
      ((hE.Recipients.map
          (fun r => (emailPerRecipient mx fails hE.MaxRetries a r).getD [])).flatten,
        Outcome.normal) ∧
    (∀ r d, recipientDomain r = some d → mx d = none →
      emailPerRecipient mx fails hE.MaxRetries a r =
        some [Event.logError "Error looking up email server: "] ∧
      sendCount ((emailPerRecipient mx fails hE.MaxRetries a r).getD []) = 0) := by
  constructor
  · rw [EmailHandler.Alert]
    exact emailAlertGo_join mx fails hE.MaxRetries a hE.Recipients
      (fun r hr => emailPerRecipient_isSome mx fails hE.MaxRetries a r (hrec r hr) hmx)
  · intro r d hd hm
    constructor
    · simp [emailPerRecipient, hd, hm]
    · simp [emailPerRecipient, hd, hm, sendCount, isSendMail]

/-- Witness for email_recipient_isolation: two recipients, the first with
a failing MX lookup, the second with a send that fails every retry; the
second recipient is still attempted (one attempt at MaxRetries = 0) after
the first is skipped with a single error log. -/
theorem email_recipient_isolation_witness :
    EmailHandler.Alert ⟨["a@b.com", "c@d.com"], 0⟩ "dc" ⟨"s", "t", "n", "critical", "m", "d"⟩
      (fun d => if d = "b.com" then none else some ["mx.example.com"]) (fun _ _ => true) =
      ([Event.logError "Error looking up email server: ",
        Event.sendMail "mx.example.com" 25 "" ""
          (emailMessageFor "c@d.com" ⟨"s", "t", "n", "critical", "m", "d"⟩),
        Event.logError "Error sending alert email: ",
        Event.logError "Retrying email in 5s...",
        Event.sleep 5], Outcome.normal) := by
  have h := (email_recipient_isolation ⟨["a@b.com", "c@d.com"], 0⟩ "dc"
    ⟨"s", "t", "n", "critical", "m", "d"⟩
    (fun d => if d = "b.com" then none else some ["mx.example.com"]) (fun _ _ => true)
    (by decide)
    (by
      intro d l hl
      by_cases hb : d = "b.com" <;> simp [hb] at hl
      subst hl
      simp)).1
  rw [h]
  decide

/-! ## C7: email message composition -/

/-- C7: for every recipient whose MX lookup succeeds, EmailHandler.Alert
runs the send loop with a message whose From header is the fixed sender
identity, whose To is that recipient, whose Subject is the alert Message
and whose body is the alert Details, and every delivery attempt (at least
one is made) dials the first resolved MX host on port 25 with empty
username and password. -/
theorem email_message_composition (mx : String → Option (List String))
    (fails : String → Nat → Bool) (maxRetries : Nat) (a : AlertState)
    (r d host : String) (records : List String)
    (hd : recipientDomain r = some d) (hm : mx d = some records)
    (hh : records.head? = some host) :
    emailPerRecipient mx fails maxRetries a r =
      some (emailSendLoop (fails r) host (emailMessageFor r a) maxRetries) ∧
    emailMessageFor r a =
      { From := "consul-alerting@noreply.com", FromName := "Consul Alerting",
        To := r, Subject := a.Message, Body := a.Details } ∧
    (∀ e ∈ emailSendLoop (fails r) host (emailMessageFor r a) maxRetries,
      isSendMail e = true → e = Event.sendMail host 25 "" "" (emailMessageFor r a)) ∧
    1 ≤ sendCount (emailSendLoop (fails r) host (emailMessageFor r a) maxRetries) := by
  refine ⟨?_, rfl, ?_, emailSendLoop_pos _ _ _ _⟩
  · simp [emailPerRecipient, hd, hm, hh]
  · intro e he hs
    exact emailLoopGo_sendMail_shape (fails r) host (emailMessageFor r a)
      (maxRetries + 1) 0 e he hs

/-- Witness for email_message_composition: recipient a@example.com with a
resolved host and an immediately successful send makes exactly the one
delivery attempt with the composed message. -/
theorem email_message_composition_witness :
    emailPerRecipient (fun _ => some ["mx.example.com", "mx2.example.com"])
      (fun _ _ => false) 2 ⟨"s", "t", "n", "critical", "subj", "body"⟩ "a@example.com" =
      some [Event.sendMail "mx.example.com" 25 "" ""
        { From := "consul-alerting@noreply.com", FromName := "Consul Alerting",
          To := "a@example.com", Subject := "subj", Body := "body" }] := by
  have h := email_message_composition (fun _ => some ["mx.example.com", "mx2.example.com"])
    (fun _ _ => false) 2 ⟨"s", "t", "n", "critical", "subj", "body"⟩
    "a@example.com" "example.com" "mx.example.com" ["mx.example.com", "mx2.example.com"]
    (by decide) rfl rfl
  rw [h.1]
  decide

/-! ## C8: slack webhook payload -/

/-- C8: every webhook post of SlackHandler.Alert goes to the endpoint
identified by the configured token and carries exactly one attachment
whose text is the fixed two-line template around Message and Details, with
the static branding fields and a current Unix timestamp; the posts are
unchanged under any change of ChannelName (which appears only in error
logs), and at least one post is made. -/
theorem slack_post_payload (h : SlackHandler) (dc : String) (a : AlertState)
    (now : Nat → Int) (sErr : Nat → Option String) :
    (∀ p ∈ slackPosts (SlackHandler.Alert h dc a now sErr).1,
      p.1 = h.Token ∧
      ∃ j, p.2 = WebhookMessage.mk [slackAttachment (slackMessage a) (now j)]) ∧
    slackMessage a = "\n*" ++ a.Message ++ "*\n" ++ a.Details ++ "\n" ∧
    (∀ ch, slackPosts (SlackHandler.Alert ⟨h.Token, ch, h.MaxRetries⟩ dc a now sErr).1 =
      slackPosts (SlackHandler.Alert h dc a now sErr).1) ∧
    1 ≤ postCount (SlackHandler.Alert h dc a now sErr).1 := by
  refine ⟨?_, rfl, ?_, slack_postCount_pos h dc a now sErr⟩
  · intro p hp
    exact slackPosts_slackLoopGo h.Token h.ChannelName (slackMessage a) now sErr
      (h.MaxRetries + 1) 0 p hp
  · intro ch
    exact slackPosts_channel_invariant h.Token ch h.ChannelName (slackMessage a) now sErr
      (h.MaxRetries + 1) 0

/-- Witness for slack_post_payload: the single post of a first-try success
carries the configured token and the one-attachment payload with the
formatted text and the clock value, and changing the channel name leaves
the posts unchanged. -/
theorem slack_post_payload_witness :
    (("tok", WebhookMessage.mk [slackAttachment "\n*m*\nd\n" 7]).1 = "tok" ∧
      ("tok", WebhookMessage.mk [slackAttachment "\n*m*\nd\n" 7]).2 =
        WebhookMessage.mk
          [slackAttachment (slackMessage ⟨"s", "t", "n", "critical", "m", "d"⟩) 7]) ∧
    slackPosts (SlackHandler.Alert ⟨"tok", "other-channel", 0⟩ "dc"
      ⟨"s", "t", "n", "critical", "m", "d"⟩ (fun _ => 7) (fun _ => none)).1 =
    slackPosts (SlackHandler.Alert ⟨"tok", "chan", 0⟩ "dc"
      ⟨"s", "t", "n", "critical", "m", "d"⟩ (fun _ => 7) (fun _ => none)).1 := by
  have h := slack_post_payload ⟨"tok", "chan", 0⟩ "dc"
    ⟨"s", "t", "n", "critical", "m", "d"⟩ (fun _ => 7) (fun _ => none)
  constructor
  · obtain ⟨h1, j, h2⟩ := h.1 ("tok", WebhookMessage.mk [slackAttachment "\n*m*\nd\n" 7])
      (by decide)
    exact ⟨h1, h2⟩
  · exact h.2.2.1 "other-channel"

/-! ## C9: handlers leave alert and configuration unchanged -/

/-- C9: for every handler variant, datacenter and alert (and every
oracle), the Alert call leaves the alert record and the handler's own
configuration unchanged: the threaded final state equals the input
state. -/
theorem alert_frame_preservation (hS : StdoutHandler) (hE : EmailHandler)
    (hP : PagerdutyHandler) (hSl : SlackHandler) (dc : String) (a : AlertState)
    (mx : String → Option (List String)) (fails : String → Nat → Bool)
    (now : Nat → Int) (sErr : Nat → Option String) (errs : List String) :
    (StdoutHandler.AlertSt hS dc a).2 = (hS, a) ∧
    (EmailHandler.AlertSt hE dc a mx fails).2 = (hE, a) ∧
    (PagerdutyHandler.AlertSt hP dc a errs).2 = (hP, a) ∧
    (SlackHandler.AlertSt hSl dc a now sErr).2 = (hSl, a) :=
  ⟨rfl, rfl, rfl, rfl⟩

/-! ## C10: index safety of the email handler -/

lemma goSplit_ne_nil (sep : Char) : ∀ l : List Char, goSplit sep l ≠ [] := by
  intro l
  induction l with
  | nil => simp [goSplit]
  | cons c cs ih =>
    by_cases hc : c = sep
    · simp [goSplit, hc]
    · cases hr : goSplit sep cs with
      | nil => simp [goSplit, hc, hr]
      | cons h t => simp [goSplit, hc, hr]

lemma goSplit_of_not_mem (sep : Char) : ∀ l : List Char, sep ∉ l →
    goSplit sep l = [l] := by
  intro l
  induction l with
  | nil => intro _; rfl
  | cons c cs ih =>
    intro h
    have hc : ¬c = sep := fun he => h (he ▸ List.mem_cons_self c cs)
    have hcs : sep ∉ cs := fun he => h (List.mem_cons_of_mem c he)
    simp [goSplit, hc, ih hcs]

lemma two_le_goSplit_length (sep : Char) : ∀ l : List Char, sep ∈ l →
    2 ≤ (goSplit sep l).length := by
  intro l
  induction l with
  | nil => intro h; cases h
  | cons c cs ih =>
    intro h
    by_cases hc : c = sep
    · have hpos : 0 < (goSplit sep cs).length :=
        List.length_pos.mpr (goSplit_ne_nil sep cs)
      simp only [goSplit, hc, if_pos, List.length_cons]
      omega
    · have hcs : sep ∈ cs := by
        rcases List.mem_cons.mp h with he | he
        · exact absurd he.symm hc
        · exact he
      have h2 := ih hcs
      cases hr : goSplit sep cs with
      | nil => exact absurd hr (goSplit_ne_nil sep cs)
      | cons hd tl =>
        rw [hr] at h2
        simp only [goSplit, hc, hr, List.length_cons] at h2 ⊢
        simpa using h2

/-- C10: the domain extraction indexes the @-split of the recipient at 1
and the MX result at 0: when the recipient contains an @-sign the split
has at least two fields, so the access is in bounds, and when additionally
every successful MX lookup returns a non-empty record list the whole
per-recipient body runs without a panic; a recipient with no @-sign makes
the split a one-element list, the index 1 access is out of bounds and the
Alert call panics. -/
theorem email_index_safety :
    (∀ r : String, Char.ofNat 64 ∈ r.data →
      2 ≤ (goSplit (Char.ofNat 64) r.data).length ∧ (recipientDomain r).isSome) ∧
    (∀ r : String, Char.ofNat 64 ∉ r.data →
      goSplit (Char.ofNat 64) r.data = [r.data] ∧ recipientDomain r = none) ∧
    (∀ (mx : String → Option (List String)) (fails : String → Nat → Bool)
      (maxRetries : Nat) (a : AlertState) (r : String),
      Char.ofNat 64 ∈ r.data → (∀ d l, mx d = some l → l ≠ []) →
      (emailPerRecipient mx fails maxRetries a r).isSome) ∧
    (∀ (mx : String → Option (List String)) (fails : String → Nat → Bool)
      (maxRetries : Nat) (a : AlertState) (r : String) (rest : List String)
      (dc : String), Char.ofNat 64 ∉ r.data →
      emailPerRecipient mx fails maxRetries a r = none ∧
      (EmailHandler.Alert ⟨r :: rest, maxRetries⟩ dc a mx fails).2 =
        Outcome.panicked) := by
  have hin : ∀ r : String, Char.ofNat 64 ∈ r.data →
      2 ≤ (goSplit (Char.ofNat 64) r.data).length ∧ (recipientDomain r).isSome := by
    intro r hr
    have h2 := two_le_goSplit_length (Char.ofNat 64) r.data hr
    refine ⟨h2, ?_⟩
    cases hg : (goSplit (Char.ofNat 64) r.data).get? 1 with
    | none =>
      have := List.get?_eq_none.mp hg
      omega
    | some v =>
      rw [recipientDomain, hg]
      rfl
  have hout : ∀ r : String, Char.ofNat 64 ∉ r.data →
      goSplit (Char.ofNat 64) r.data = [r.data] ∧ recipientDomain r = none := by
    intro r hr
    have hs := goSplit_of_not_mem (Char.ofNat 64) r.data hr
    exact ⟨hs, by simp [recipientDomain, hs]⟩
  refine ⟨hin, hout, ?_, ?_⟩
  · intro mx fails maxRetries a r hr hmx
    exact emailPerRecipient_isSome mx fails maxRetries a r (hin r hr).2 hmx
  · intro mx fails maxRetries a r rest dc hr
    have hd := (hout r hr).2
    have hn : emailPerRecipient mx fails maxRetries a r = none := by
      simp [emailPerRecipient, hd]
    exact ⟨hn, by simp [EmailHandler.Alert, emailAlertGo, hn]⟩

/-- Witness for email_index_safety: a@example.com contains an @-sign and
its per-recipient body is defined; the address string noat has none, the
split is the singleton and an Alert on it panics. -/
theorem email_index_safety_witness :
    (recipientDomain "a@example.com").isSome ∧
    recipientDomain "noat" = none ∧
    (EmailHandler.Alert ⟨["noat"], 2⟩ "dc" ⟨"s", "t", "n", "critical", "m", "d"⟩
      (fun _ => some ["mx.example.com"]) (fun _ _ => true)).2 = Outcome.panicked := by
  refine ⟨(email_index_safety.1 "a@example.com" (by decide)).2, ?_, ?_⟩
  · exact (email_index_safety.2.1 "noat" (by decide)).2
  · exact (email_index_safety.2.2.2 (fun _ => some ["mx.example.com"]) (fun _ _ => true)
      2 ⟨"s", "t", "n", "critical", "m", "d"⟩ "noat" [] "dc" (by decide)).2

end ConsulAlerting
